import Mathlib

/-!
Verification development for a node-local Device Manager (REDHAWK core
`DeviceManager_impl`).  The registration state machine, child-lifecycle
tracker, deployment planner and shutdown engine are shallowly embedded as
executable Lean functions; external collaborators (the RPC transport, the
naming directory, child processes) are modelled by explicit outcome flags
and an event trace recording every outbound call.
-/

namespace DevMgr

/-- Administrative state of the manager (`DEVMGR_*` constants). -/
inductive AdminState where
  | UNREGISTERED
  | REGISTERED
  | SHUTTING_DOWN
  | SHUTDOWN
  deriving DecidableEq, Repr

/-- A tracked device child (`DeviceManager_impl::DeviceNode`): identifier,
label, stringified IOR and process id (0 when not launched here). -/
structure DeviceNode where
  identifier : String
  label : String
  IOR : String
  pid : Nat
  deriving DecidableEq, Repr

/-- A tracked service child (`DeviceManager_impl::ServiceNode`). -/
structure ServiceNode where
  identifier : String
  label : String
  IOR : String
  pid : Nat
  deriving DecidableEq, Repr

/-- An inbound device object reference (`CF::Device_ptr`); `isNil` models
`CORBA::is_nil`, the remaining fields model the remote attributes
`identifier()`, `label()` and the stringified object reference. -/
structure DeviceRef where
  isNil : Bool
  identifier : String
  label : String
  ior : String
  deriving DecidableEq, Repr

/-- An inbound service object reference (`CORBA::Object_ptr`). -/
structure ServiceRef where
  isNil : Bool
  ior : String
  deriving DecidableEq, Repr

/-- Outbound effects of the manager: calls on children, naming-directory
operations, DomainManager (remote registry) calls, and signals. -/
inductive Event where
  | childInitializeProperties (ior : String)
  | childInitialize (ior : String)
  | childConfigure (ior : String)
  | nameBind (name : String)
  | nameRebind (name : String)
  | nameUnbind (name : String)
  | remoteRegisterDevice (ior : String)
  | remoteUnregisterDevice (ior : String)
  | remoteRegisterService (name : String)
  | remoteUnregisterService (name : String)
  | releaseObject (ior : String) (timeoutMs : Nat)
  | signalSent (pid : Nat) (sig : Nat)
  | waitPending (timeoutUs : Nat)
  deriving DecidableEq, Repr

/-- Errors surfaced to a caller of the four registration operations.
`invalidReference` models `CF::InvalidObjectReference`; `remoteFailure`
models an exception from the DomainManager re-thrown to the caller. -/
inductive RegError where
  | invalidReference (msg : String)
  | remoteFailure
  deriving DecidableEq, Repr

/-- True iff the error is a `CF::InvalidObjectReference`. -/
def RegError.isInvalidRef : RegError → Bool
  | .invalidReference _ => true
  | .remoteFailure => false

/-- Mutable state of the manager: the admin state, the process-wide
shutdown flag, and the four child buckets (`_pendingDevices`,
`_registeredDevices`, `_pendingServices`, `_registeredServices`). -/
structure DMState where
  adminState : AdminState
  internalShutdown : Bool
  pendingDevices : List DeviceNode
  registeredDevices : List DeviceNode
  pendingServices : List ServiceNode
  registeredServices : List ServiceNode
  deriving DecidableEq, Repr

/-- Behaviour of the external world during one registration call: whether
the profile lookup succeeds, whether each child call fails, whether the
naming bind collides, and whether the DomainManager call fails.  Child
attribute reads (`label()`, `identifier()`) are modelled as succeeding. -/
structure RegEnv where
  profileFound : Bool
  configurable : Bool
  initPropsFails : Bool
  initializeFails : Bool
  hasConfigureProps : Bool
  configureFails : Bool
  bindFails : Bool
  remoteRegisterFails : Bool
  queryFails : Bool
  deriving DecidableEq, Repr

instance : DecidableEq (Except RegError Unit) := fun a b =>
  match a, b with
  | .ok _, .ok _ => isTrue rfl
  | .error e, .error f =>
    if h : e = f then isTrue (by rw [h]) else isFalse (by intro hc; cases hc; exact h rfl)
  | .ok _, .error _ => isFalse (by intro hc; cases hc)
  | .error _, .ok _ => isFalse (by intro hc; cases hc)

/-- Result of one inbound operation: the value or error returned to the
caller, the state after the call, and the trace of outbound effects. -/
structure Outcome where
  result : Except RegError Unit
  state : DMState
  events : List Event
  deriving DecidableEq, Repr

/-- Remove the first element satisfying `p` (the `vector::erase` of the
element located by a linear search), returning it alongside the rest. -/
def findRemoveBy (p : α → Bool) : List α → Option α × List α
  | [] => (none, [])
  | x :: xs =>
    if p x then (some x, xs)
    else ((findRemoveBy p xs).1, x :: (findRemoveBy p xs).2)

/-- `DeviceManager_impl::deviceIsRegistered`: the reference is equivalent
(modelled by IOR equality) to a member of `_registeredDevices`. -/
def deviceIsRegistered (s : DMState) (d : DeviceRef) : Bool :=
  s.registeredDevices.any (fun n => n.IOR == d.ior)

/-- `DeviceManager_impl::serviceIsRegistered`: the name matches the label
of a member of `_registeredServices`. -/
def serviceIsRegistered (s : DMState) (name : String) : Bool :=
  s.registeredServices.any (fun n => n.label == name)

/-- `DeviceManager_impl::increment_registeredDevices`: adopt the pending
node whose `identifier` matches the registering device (keeping its pid),
or create a fresh node with pid 0 for an externally launched device; the
node, updated with the device's label and IOR, is appended to
`_registeredDevices`. -/
def increment_registeredDevices (s : DMState) (d : DeviceRef) : DMState :=
  let fr := findRemoveBy (fun n => n.identifier == d.identifier) s.pendingDevices
  let node : DeviceNode :=
    match fr.1 with
    | some n => { n with label := d.label, IOR := d.ior }
    | none => { identifier := d.identifier, label := d.label, IOR := d.ior, pid := 0 }
  { s with pendingDevices := fr.2
         , registeredDevices := s.registeredDevices ++ [node] }

/-- `DeviceManager_impl::increment_registeredServices`: adopt the pending
node whose `label` matches the service name (keeping its pid), or create a
fresh node with identifier = name and pid 0; the node, updated with the
name and the service's IOR, is appended to `_registeredServices`. -/
def increment_registeredServices (s : DMState) (svc : ServiceRef) (name : String) : DMState :=
  let fr := findRemoveBy (fun n => n.label == name) s.pendingServices
  let node : ServiceNode :=
    match fr.1 with
    | some n => { n with label := name, IOR := svc.ior }
    | none => { identifier := name, label := name, IOR := svc.ior, pid := 0 }
  { s with pendingServices := fr.2
         , registeredServices := s.registeredServices ++ [node] }

/-- `DeviceManager_impl::local_unregisterDevice`: unbind the device label
from the manager's naming context and, when the manager is still
`REGISTERED` (not shutting down), unregister from the DomainManager. -/
def local_unregisterDevice (adminState : AdminState) (ior label : String) : List Event :=
  [Event.nameUnbind label] ++
    (if adminState = AdminState.REGISTERED then [Event.remoteUnregisterDevice ior] else [])

/-- `DeviceManager_impl::local_unregisterService`: unbind the service name
from the root naming context and, when the manager is still `REGISTERED`,
unregister from the DomainManager. -/
def local_unregisterService (adminState : AdminState) (name : String) : List Event :=
  [Event.nameUnbind name] ++
    (if adminState = AdminState.REGISTERED then [Event.remoteUnregisterService name] else [])

/-- `DeviceManager_impl::decrement_registeredDevices`: locate the record
by IOR; when found erase it from `_registeredDevices`, push it back to
`_pendingDevices` when its pid is non-zero, then unbind and (outside
shutdown) unregister upstream.  Returns whether a record was found. -/
def decrement_registeredDevices (s : DMState) (d : DeviceRef) :
    Bool × DMState × List Event :=
  let fr := findRemoveBy (fun n => n.IOR == d.ior) s.registeredDevices
  match fr.1 with
  | none => (false, s, [])
  | some node =>
    let s1 := { s with registeredDevices := fr.2
                     , pendingDevices :=
                        if node.pid ≠ 0 then s.pendingDevices ++ [node]
                        else s.pendingDevices }
    (true, s1, local_unregisterDevice s1.adminState d.ior node.label)

/-- `DeviceManager_impl::decrement_registeredServices`: locate the record
by label; when found unbind and (outside shutdown) unregister upstream,
erase it from `_registeredServices`, and push it back to
`_pendingServices` when its pid is non-zero. -/
def decrement_registeredServices (s : DMState) (name : String) :
    Bool × DMState × List Event :=
  let fr := findRemoveBy (fun n => n.label == name) s.registeredServices
  match fr.1 with
  | none => (false, s, [])
  | some node =>
    let evs := local_unregisterService s.adminState name
    let s1 := { s with registeredServices := fr.2
                     , pendingServices :=
                        if node.pid ≠ 0 then s.pendingServices ++ [node]
                        else s.pendingServices }
    (true, s1, evs)

/-- `DeviceManager_impl::registerDevice`: reject nil; return silently when
the process-wide shutdown flag is set; return silently when already
registered; locate the launch-time profile (failure raises
`InvalidReference`); drive `initializeProperties` / `initialize` /
`configure` on the child, any failure raising `InvalidReference`; bind the
label into the manager's naming context (a collision is treated as already
registered); promote the record; finally, when the manager is
`REGISTERED`, forward the registration to the DomainManager, where any
failure is only logged. -/
def registerDevice (env : RegEnv) (s : DMState) (d : DeviceRef) : Outcome :=
  if d.isNil then
    ⟨.error (.invalidReference "registeringDevice is a nil reference"), s, []⟩
  else if s.internalShutdown then
    ⟨.ok (), s, []⟩
  else if deviceIsRegistered s d then
    ⟨.ok (), s, []⟩
  else if !env.profileFound then
    ⟨.error (.invalidReference "Loading SPD failed"), s, []⟩
  else
    let ev1 := if env.configurable then [Event.childInitializeProperties d.ior] else []
    if env.configurable && env.initPropsFails then
      ⟨.error (.invalidReference "initializeProperties failed"), s, ev1⟩
    else
      let ev2 := ev1 ++ [Event.childInitialize d.ior]
      if env.initializeFails then
        ⟨.error (.invalidReference "initialize failed"), s, ev2⟩
      else
        let ev3 := ev2 ++ (if env.hasConfigureProps then [Event.childConfigure d.ior] else [])
        if env.hasConfigureProps && env.configureFails then
          ⟨.error (.invalidReference "configure failed"), s, ev3⟩
        else if deviceIsRegistered s d then
          ⟨.ok (), s, ev3⟩
        else
          let ev4 := ev3 ++ [Event.nameBind d.label]
          if env.bindFails then
            ⟨.ok (), s, ev4⟩
          else
            let s1 := increment_registeredDevices s d
            if s1.adminState = AdminState.REGISTERED then
              ⟨.ok (), s1, ev4 ++ [Event.remoteRegisterDevice d.ior]⟩
            else
              ⟨.ok (), s1, ev4⟩

/-- `DeviceManager_impl::registerService`: reject nil; return silently
when the name is already registered; rebind the name into the root naming
context (a collision is treated as already registered); add the record;
when the manager is `REGISTERED` forward to the DomainManager, and on
failure there unbind the name, pop the just-added record and re-throw.
Note: unlike `registerDevice` there is no shutdown-flag guard. -/
def registerService (env : RegEnv) (s : DMState) (svc : ServiceRef) (name : String) :
    Outcome :=
  if svc.isNil then
    ⟨.error (.invalidReference "registeringService is a nil reference"), s, []⟩
  else if serviceIsRegistered s name then
    ⟨.ok (), s, []⟩
  else
    let ev1 := [Event.nameRebind name]
    if env.bindFails then
      ⟨.ok (), s, ev1⟩
    else
      let s1 := increment_registeredServices s svc name
      if s1.adminState = AdminState.REGISTERED then
        let ev2 := ev1 ++ [Event.remoteRegisterService name]
        if env.remoteRegisterFails then
          let s2 := { s1 with registeredServices := s1.registeredServices.dropLast }
          ⟨.error .remoteFailure, s2, ev2 ++ [Event.nameUnbind name]⟩
        else
          ⟨.ok (), s1, ev2⟩
      else
        ⟨.ok (), s1, ev1⟩

/-- `DeviceManager_impl::unregisterDevice`: reject nil; read the child's
identifier and label (a failure there raises `InvalidReference`); then
`decrement_registeredDevices`, raising `InvalidReference` when the
reference was not found among the registered devices. -/
def unregisterDevice (env : RegEnv) (s : DMState) (d : DeviceRef) : Outcome :=
  if d.isNil then
    ⟨.error (.invalidReference "registeringDevice is a nil reference"), s, []⟩
  else if env.queryFails then
    ⟨.error (.invalidReference "Invalid reference"), s, []⟩
  else
    let r := decrement_registeredDevices s d
    if r.1 then ⟨.ok (), r.2.1, r.2.2⟩
    else ⟨.error (.invalidReference "registeringDevice was not registered"), r.2.1, r.2.2⟩

/-- `DeviceManager_impl::unregisterService`: reject nil; then
`decrement_registeredServices`, raising `InvalidReference` when the name
was not found among the registered services. -/
def unregisterService (s : DMState) (svc : ServiceRef) (name : String) : Outcome :=
  if svc.isNil then
    ⟨.error (.invalidReference "registeringService is a nil reference"), s, []⟩
  else
    let r := decrement_registeredServices s name
    if r.1 then ⟨.ok (), r.2.1, r.2.2⟩
    else ⟨.error (.invalidReference "registeringService was not registered"), r.2.1, r.2.2⟩

/-! Shutdown engine (`shutdown`, `clean_registeredDevices`,
`killPendingDevices`). -/

/-- Signal number of SIGINT. -/
def SIGINT : Nat := 2
/-- Signal number of SIGTERM. -/
def SIGTERM : Nat := 15
/-- Signal number of SIGKILL. -/
def SIGKILL : Nat := 9

/-- Default of the `DEVICE_FORCE_QUIT_TIME` property (0.5 s), expressed in
microseconds as `clean_registeredDevices` converts it (`0.5 * 1e6`). -/
def DEVICE_FORCE_QUIT_TIME_DEFAULT_US : Nat := 500000

/-- `DeviceManager_impl::killPendingDevices`: send `sig` to every pending
device, then (when a positive timeout is given) wait on the
pending-devices-empty condition up to `timeoutUs` microseconds. -/
def killPendingDevices (pend : List DeviceNode) (sig : Nat) (timeoutUs : Nat) :
    List Event :=
  pend.map (fun dev => Event.signalSent dev.pid sig) ++
    (if timeoutUs > 0 then [Event.waitPending timeoutUs] else [])

/-- The release loop of `DeviceManager_impl::clean_registeredDevices`:
while registered devices remain, call `releaseObject` on the front device
with a 3-second call timeout.  `rel ior` tells whether the device reacts
by unregistering itself (the `decrement_registeredDevices` path, which
moves a node with non-zero pid to pending and unbinds its name); when it
does not, the node is still at the front afterwards, so the manager erases
it, moving it to pending when its pid is non-zero and dropping it
otherwise.  Returns the final pending bucket and the event trace. -/
def cleanReleaseLoop (rel : String → Bool) (adminState : AdminState) :
    List DeviceNode → List DeviceNode → List DeviceNode × List Event
  | [], pend => (pend, [])
  | dev :: rest, pend =>
    let relEv := [Event.releaseObject dev.IOR 3000]
    let pend1 := if dev.pid ≠ 0 then pend ++ [dev] else pend
    if rel dev.IOR then
      let evs := relEv ++ local_unregisterDevice adminState dev.IOR dev.label
      let r := cleanReleaseLoop rel adminState rest pend1
      (r.1, evs ++ r.2)
    else
      let r := cleanReleaseLoop rel adminState rest pend1
      (r.1, relEv ++ r.2)

/-- `DeviceManager_impl::clean_registeredDevices`: run the release loop
over the registered devices, then escalate signals on the pending bucket:
SIGINT with a bounded wait of `forceQuitUs`, SIGTERM with the same bounded
wait, then SIGKILL with no wait. -/
def clean_registeredDevices (rel : String → Bool) (forceQuitUs : Nat) (s : DMState) :
    DMState × List Event :=
  let r := cleanReleaseLoop rel s.adminState s.registeredDevices s.pendingDevices
  let s1 := { s with registeredDevices := [], pendingDevices := r.1 }
  (s1, r.2 ++ killPendingDevices r.1 SIGINT forceQuitUs
           ++ killPendingDevices r.1 SIGTERM forceQuitUs
           ++ killPendingDevices r.1 SIGKILL 0)

/-- The admin-state prefix of `DeviceManager_impl::shutdown`: set the
process-wide shutdown flag, return early when already shutting down or
shut down, otherwise enter `SHUTTING_DOWN`.  (The subsequent cleanup calls
are modelled separately.) -/
def shutdownEntry (s : DMState) : DMState :=
  let s1 := { s with internalShutdown := true }
  if s1.adminState = AdminState.SHUTTING_DOWN ∨ s1.adminState = AdminState.SHUTDOWN then s1
  else { s1 with adminState := AdminState.SHUTTING_DOWN }

/-! Deployment planning (`setupImplementationForHost`, `postConstructor`
placement classification, `resolveImplementation`,
`resolveSoftpkgDependencies`). -/

/-- `CF::LoadableDevice` code types relevant to planning. -/
inductive CodeType where
  | Executable
  | SharedLibrary
  deriving DecidableEq, Repr

/-- One implementation alternative of a software package: its id, the
processor and OS it supports, and its code type. -/
structure ImplementationVariant where
  id : String
  processor : String
  osName : String
  codeType : CodeType
  deriving DecidableEq, Repr

/-- Host facts from `uname`: `machine` and `sysname`. -/
structure HostFacts where
  machine : String
  sysname : String
  deriving DecidableEq, Repr

/-- Modelled from the spec: `ImplementationInfo::checkProcessorAndOs`
lives outside this repository slice (spdSupport); per the spec an
ImplementationVariant is matched against a host iff its processor equals
the host's `machine` and its osName equals the host's `sysname`. -/
def checkProcessorAndOs (impl : ImplementationVariant) (host : HostFacts) : Bool :=
  impl.processor == host.machine && impl.osName == host.sysname

mutual
/-- `local_spd::ImplementationInfo`: an implementation variant together
with its soft-package dependencies. -/
inductive ImplementationInfo where
  | mk (variant : ImplementationVariant) (softpkgDeps : List SoftpkgInfo) : ImplementationInfo

/-- `local_spd::SoftpkgInfo`: a named soft package offering a list of
implementations. -/
inductive SoftpkgInfo where
  | mk (name : String) (impls : List ImplementationInfo) : SoftpkgInfo
end

/-- The implementation variant of an `ImplementationInfo`. -/
def ImplementationInfo.variant : ImplementationInfo → ImplementationVariant
  | .mk v _ => v

/-- The soft-package dependencies of an `ImplementationInfo`. -/
def ImplementationInfo.softpkgDeps : ImplementationInfo → List SoftpkgInfo
  | .mk _ deps => deps

mutual
/-- `DeviceManager_impl::resolveSoftpkgDependencies`: every soft-package
dependency of the implementation must resolve (depth-first) to an
implementation matching the host. -/
def resolveSoftpkgDependencies (host : HostFacts) : ImplementationInfo → Bool
  | .mk _ deps => resolveDepList host deps

/-- The loop body of `resolveSoftpkgDependencies` over the dependency
list: each package must have a resolvable implementation. -/
def resolveDepList (host : HostFacts) : List SoftpkgInfo → Bool
  | [] => true
  | pkg :: rest => resolveDependencyImplementation host pkg && resolveDepList host rest

/-- `DeviceManager_impl::resolveDependencyImplementation`: some
implementation of the package matches the host processor and OS and has
its own dependencies recursively resolvable. -/
def resolveDependencyImplementation (host : HostFacts) : SoftpkgInfo → Bool
  | .mk _ impls => resolveImplList host impls

/-- The loop of `resolveDependencyImplementation` over the package's
implementations. -/
def resolveImplList (host : HostFacts) : List ImplementationInfo → Bool
  | [] => false
  | .mk v deps :: rest =>
    if checkProcessorAndOs v host then
      resolveDepList host deps || resolveImplList host rest
    else resolveImplList host rest
end

/-- `DeviceManager_impl::resolveImplementation`: select the first
implementation of the placement's profile matching the manager's host
properties. -/
def resolveImplementation (host : HostFacts) : List ImplementationInfo → Option ImplementationInfo
  | [] => none
  | impl :: rest =>
    if checkProcessorAndOs impl.variant host then some impl
    else resolveImplementation host rest

/-- `DeviceManager_impl::setupImplementationForHost`: error when the
manager's SPD has no implementations; otherwise select the first whose
processor and OS match the host, erroring when none matches. -/
def setupImplementationForHost (impls : List ImplementationVariant) (host : HostFacts) :
    Except String ImplementationVariant :=
  if impls.isEmpty then
    .error "Device manager SPD has no implementations to match against."
  else
    match impls.find? (fun impl => checkProcessorAndOs impl host) with
    | some impl => .ok impl
    | none => .error "Unable to find device manager implementation to match processor"

/-- One component placement from the node profile: its first
instantiation id, the `compositepartofdevice` marker, whether its SPD
profile loads, and the profile's implementations. -/
structure PlacementSpec where
  instId : String
  isCompositePartOf : Bool
  profileLoads : Bool
  impls : List ImplementationInfo

/-- The resolution of one placement performed by the planning loop of
`postConstructor`: the profile must load, a matching implementation must
exist, and its soft-package dependencies must resolve. -/
def resolvePlacement (host : HostFacts) (p : PlacementSpec) : Option ImplementationInfo :=
  if !p.profileLoads then none
  else
    match resolveImplementation host p.impls with
    | none => none
    | some impl =>
      if resolveSoftpkgDependencies host impl then some impl else none

/-- The planning loop of `DeviceManager_impl::postConstructor`: each
placement that fails to resolve is skipped (with an error log); a resolved
placement goes to the composite list when it is `isCompositePartOf` and
its selected implementation's code type is SharedLibrary, and to the
standalone list otherwise.  Input order is preserved in both lists. -/
def planPlacements (host : HostFacts) :
    List PlacementSpec →
    List (PlacementSpec × ImplementationInfo) × List (PlacementSpec × ImplementationInfo)
  | [] => ([], [])
  | p :: rest =>
    let r := planPlacements host rest
    match resolvePlacement host p with
    | none => r
    | some impl =>
      if p.isCompositePartOf && impl.variant.codeType == CodeType.SharedLibrary then
        (r.1, (p, impl) :: r.2)
      else
        ((p, impl) :: r.1, r.2)

/-- The launch order of `postConstructor`: all standalone placements (in
input order), then all composite placements (in input order). -/
def launchSequence (host : HostFacts) (ps : List PlacementSpec) : List String :=
  let r := planPlacements host ps
  r.1.map (fun q => q.1.instId) ++ r.2.map (fun q => q.1.instId)

/-- The successfully resolved placements, in input order, paired with
their selected implementations. -/
def resolvedPlacements (host : HostFacts) (ps : List PlacementSpec) :
    List (PlacementSpec × ImplementationInfo) :=
  ps.filterMap (fun p => (resolvePlacement host p).map (fun impl => (p, impl)))

/-! Read-only snapshots (`registeredDevices()`, `registeredServices()`). -/

/-- The body of the `try` block of `registeredDevices()`: build one entry
per registered device, in bucket order; `failAt i` models an internal
failure (an exception) while building entry `i`. -/
def buildDeviceSequence (failAt : Nat → Bool) : Nat → List DeviceNode → Except Unit (List String)
  | _, [] => .ok []
  | i, n :: rest =>
    if failAt i then .error ()
    else
      match buildDeviceSequence failAt (i + 1) rest with
      | .ok r => .ok (n.IOR :: r)
      | .error e => .error e

/-- `DeviceManager_impl::registeredDevices`: the snapshot built under the
bucket mutex; any exception is caught and an empty sequence returned. -/
def registeredDevicesOp (failAt : Nat → Bool) (s : DMState) : List String :=
  match buildDeviceSequence failAt 0 s.registeredDevices with
  | .ok r => r
  | .error _ => []

/-- The body of the `try` block of `registeredServices()`: one entry
(service IOR and name) per registered service, in bucket order. -/
def buildServiceSequence (failAt : Nat → Bool) :
    Nat → List ServiceNode → Except Unit (List (String × String))
  | _, [] => .ok []
  | i, n :: rest =>
    if failAt i then .error ()
    else
      match buildServiceSequence failAt (i + 1) rest with
      | .ok r => .ok ((n.IOR, n.label) :: r)
      | .error e => .error e

/-- `DeviceManager_impl::registeredServices`: the snapshot built under the
bucket mutex; any exception is caught and an empty sequence returned. -/
def registeredServicesOp (failAt : Nat → Bool) (s : DMState) : List (String × String) :=
  match buildServiceSequence failAt 0 s.registeredServices with
  | .ok r => r
  | .error _ => []

/-- The operation raised `CF::InvalidObjectReference` to the caller. -/
def raisesInvalidRef (o : Outcome) : Prop :=
  ∃ msg, o.result = Except.error (RegError.invalidReference msg)

/-- Number of registered device records carrying the given IOR. -/
def countDeviceIOR (s : DMState) (ior : String) : Nat :=
  (s.registeredDevices.filter (fun n => n.IOR == ior)).length

/-- Number of registered service records carrying the given name. -/
def countServiceName (s : DMState) (name : String) : Nat :=
  (s.registeredServices.filter (fun n => n.label == name)).length

/-! Supporting lemmas. -/

theorem findRemoveBy_none {p : α → Bool} {xs : List α}
    (h : ∀ x ∈ xs, p x = false) : findRemoveBy p xs = (none, xs) := by
  induction xs with
  | nil => rfl
  | cons x xs ih =>
    have hx := h x (List.mem_cons_self x xs)
    simp only [findRemoveBy, hx, Bool.false_eq_true, if_false]
    rw [ih (fun y hy => h y (List.mem_cons_of_mem x hy))]

theorem findRemoveBy_some {p : α → Bool} {xs rest : List α} {a : α}
    (h : findRemoveBy p xs = (some a, rest)) :
    p a = true ∧ ∃ l1 l2, xs = l1 ++ a :: l2 ∧ rest = l1 ++ l2 ∧ ∀ x ∈ l1, p x = false := by
  induction xs generalizing rest with
  | nil => simp [findRemoveBy] at h
  | cons x xs ih =>
    rw [findRemoveBy] at h
    by_cases hx : p x = true
    · rw [if_pos hx] at h
      have h1 : some x = some a := congrArg Prod.fst h
      have h2 : xs = rest := congrArg Prod.snd h
      injection h1 with hxa
      subst hxa; subst h2
      exact ⟨hx, [], xs, rfl, rfl, by simp⟩
    · rw [if_neg hx] at h
      have h1 : (findRemoveBy p xs).1 = some a := congrArg Prod.fst h
      have h2 : x :: (findRemoveBy p xs).2 = rest := congrArg Prod.snd h
      have hfx : findRemoveBy p xs = (some a, (findRemoveBy p xs).2) := by
        conv_lhs => rw [← Prod.mk.eta (p := findRemoveBy p xs)]
        rw [h1]
      obtain ⟨hpa, l1, l2, hxs, hrest, hl1⟩ := ih hfx
      refine ⟨hpa, x :: l1, l2, by rw [hxs]; rfl, ?_, ?_⟩
      · rw [← h2, hrest]; rfl
      · intro y hy
        rcases List.mem_cons.mp hy with rfl | hy2
        · exact Bool.eq_false_iff.mpr (fun hc => hx hc)
        · exact hl1 y hy2

theorem mem_of_count_pos {s : DMState} {ior : String}
    (h : 0 < countDeviceIOR s ior) :
    ∃ n ∈ s.registeredDevices, (n.IOR == ior) = true := by
  unfold countDeviceIOR at h
  obtain ⟨n, hn⟩ := List.exists_mem_of_length_pos h
  exact ⟨n, (List.mem_filter.mp hn).1, (List.mem_filter.mp hn).2⟩

theorem deviceIsRegistered_of_count {s : DMState} {d : DeviceRef}
    (h : 0 < countDeviceIOR s d.ior) : deviceIsRegistered s d = true := by
  obtain ⟨n, hmem, hior⟩ := mem_of_count_pos h
  unfold deviceIsRegistered
  exact List.any_eq_true.mpr ⟨n, hmem, hior⟩

theorem mem_of_countService_pos {s : DMState} {name : String}
    (h : 0 < countServiceName s name) :
    ∃ n ∈ s.registeredServices, (n.label == name) = true := by
  unfold countServiceName at h
  obtain ⟨n, hn⟩ := List.exists_mem_of_length_pos h
  exact ⟨n, (List.mem_filter.mp hn).1, (List.mem_filter.mp hn).2⟩

theorem serviceIsRegistered_of_count {s : DMState} {name : String}
    (h : 0 < countServiceName s name) : serviceIsRegistered s name = true := by
  obtain ⟨n, hmem, hl⟩ := mem_of_countService_pos h
  unfold serviceIsRegistered
  exact List.any_eq_true.mpr ⟨n, hmem, hl⟩

theorem cleanReleaseLoop_pending (rel : String → Bool) (a : AdminState)
    (regs pend : List DeviceNode) :
    (cleanReleaseLoop rel a regs pend).1 =
      pend ++ regs.filter (fun dev => dev.pid != 0) := by
  induction regs generalizing pend with
  | nil => simp [cleanReleaseLoop]
  | cons dev rest ih =>
    by_cases hp : dev.pid = 0
    · have hb : (dev.pid != 0) = false := by simp [hp]
      by_cases hr : rel dev.IOR = true <;>
        simp [cleanReleaseLoop, hp, hr, ih, List.filter_cons, hb]
    · have hb : (dev.pid != 0) = true := bne_iff_ne.mpr hp
      by_cases hr : rel dev.IOR = true <;>
        simp [cleanReleaseLoop, hp, hr, ih, List.filter_cons, hb]

theorem cleanReleaseLoop_release_mem (rel : String → Bool) (a : AdminState)
    {regs : List DeviceNode} (pend : List DeviceNode) {dev : DeviceNode}
    (h : dev ∈ regs) :
    Event.releaseObject dev.IOR 3000 ∈ (cleanReleaseLoop rel a regs pend).2 := by
  induction regs generalizing pend with
  | nil => cases h
  | cons hd rest ih =>
    rcases List.mem_cons.mp h with rfl | hmem
    · by_cases hr : rel dev.IOR = true <;> simp [cleanReleaseLoop, hr]
    · by_cases hr : rel hd.IOR = true <;>
        simp [cleanReleaseLoop, hr, ih _ hmem]

theorem buildDeviceSequence_ok {failAt : Nat → Bool} {devs : List DeviceNode}
    {i : Nat} {r : List String} (h : buildDeviceSequence failAt i devs = .ok r) :
    r = devs.map (fun n => n.IOR) := by
  induction devs generalizing i r with
  | nil => simp [buildDeviceSequence] at h; simp [← h]
  | cons n rest ih =>
    by_cases hf : failAt i = true
    · simp [buildDeviceSequence, hf] at h
    · simp only [buildDeviceSequence, hf, Bool.false_eq_true, if_false] at h
      cases hrec : buildDeviceSequence failAt (i + 1) rest with
      | ok r2 =>
        rw [hrec] at h
        simp only [Except.ok.injEq] at h
        rw [← h, List.map_cons, ih hrec]
      | error e => rw [hrec] at h; cases h

theorem buildDeviceSequence_noFail {failAt : Nat → Bool}
    (hf : ∀ j, failAt j = false) (i : Nat) (devs : List DeviceNode) :
    buildDeviceSequence failAt i devs = .ok (devs.map (fun n => n.IOR)) := by
  induction devs generalizing i with
  | nil => rfl
  | cons n rest ih =>
    simp [buildDeviceSequence, hf i, ih (i + 1)]

theorem buildServiceSequence_ok {failAt : Nat → Bool} {svcs : List ServiceNode}
    {i : Nat} {r : List (String × String)}
    (h : buildServiceSequence failAt i svcs = .ok r) :
    r = svcs.map (fun n => (n.IOR, n.label)) := by
  induction svcs generalizing i r with
  | nil => simp [buildServiceSequence] at h; simp [← h]
  | cons n rest ih =>
    by_cases hf : failAt i = true
    · simp [buildServiceSequence, hf] at h
    · simp only [buildServiceSequence, hf, Bool.false_eq_true, if_false] at h
      cases hrec : buildServiceSequence failAt (i + 1) rest with
      | ok r2 =>
        rw [hrec] at h
        simp only [Except.ok.injEq] at h
        rw [← h, List.map_cons, ih hrec]
      | error e => rw [hrec] at h; cases h

theorem buildServiceSequence_noFail {failAt : Nat → Bool}
    (hf : ∀ j, failAt j = false) (i : Nat) (svcs : List ServiceNode) :
    buildServiceSequence failAt i svcs = .ok (svcs.map (fun n => (n.IOR, n.label))) := by
  induction svcs generalizing i with
  | nil => rfl
  | cons n rest ih =>
    simp [buildServiceSequence, hf i, ih (i + 1)]

theorem findRemoveBy_not_mem_rest {p : α → Bool} {xs rest : List α} {a : α} {f : α → β}
    (h : findRemoveBy p xs = (some a, rest)) (hnd : (xs.map f).Nodup) :
    f a ∉ rest.map f := by
  obtain ⟨-, l1, l2, hxs, hrest, -⟩ := findRemoveBy_some h
  subst hxs; subst hrest
  simp only [List.map_append, List.map_cons] at hnd
  rw [List.nodup_append] at hnd
  obtain ⟨-, h2n, hdisj⟩ := hnd
  simp only [List.map_append]
  intro hmem
  rcases List.mem_append.mp hmem with hm1 | hm2
  · exact hdisj hm1 (List.mem_cons_self _ _)
  · exact (List.nodup_cons.mp h2n).1 hm2

theorem decrement_registeredDevices_notFound {s : DMState} {d : DeviceRef}
    (h : deviceIsRegistered s d = false) :
    decrement_registeredDevices s d = (false, s, []) := by
  unfold deviceIsRegistered at h
  have hall : ∀ n ∈ s.registeredDevices, (n.IOR == d.ior) = false := by
    intro n hn
    exact Bool.eq_false_iff.mpr (List.any_eq_false.mp h n hn)
  unfold decrement_registeredDevices
  rw [findRemoveBy_none hall]

theorem decrement_registeredServices_notFound {s : DMState} {name : String}
    (h : serviceIsRegistered s name = false) :
    decrement_registeredServices s name = (false, s, []) := by
  unfold serviceIsRegistered at h
  have hall : ∀ n ∈ s.registeredServices, (n.label == name) = false := by
    intro n hn
    exact Bool.eq_false_iff.mpr (List.any_eq_false.mp h n hn)
  unfold decrement_registeredServices
  rw [findRemoveBy_none hall]

/-! Claim theorems. -/

/-- C3: every `registerDevice`, `registerService`, `unregisterDevice` or
`unregisterService` call whose child reference is nil raises
`InvalidReference` with no state change and no outbound call, and
`unregisterDevice` also raises `InvalidReference` when the non-nil
reference is absent from the registered devices. -/
theorem C3_nil_or_unknown_raises_invalid_reference :
    (∀ (env : RegEnv) (s : DMState) (d : DeviceRef), d.isNil = true →
      raisesInvalidRef (registerDevice env s d) ∧
      (registerDevice env s d).state = s ∧ (registerDevice env s d).events = []) ∧
    (∀ (env : RegEnv) (s : DMState) (svc : ServiceRef) (name : String), svc.isNil = true →
      raisesInvalidRef (registerService env s svc name) ∧
      (registerService env s svc name).state = s ∧
      (registerService env s svc name).events = []) ∧
    (∀ (env : RegEnv) (s : DMState) (d : DeviceRef), d.isNil = true →
      raisesInvalidRef (unregisterDevice env s d) ∧
      (unregisterDevice env s d).state = s ∧ (unregisterDevice env s d).events = []) ∧
    (∀ (s : DMState) (svc : ServiceRef) (name : String), svc.isNil = true →
      raisesInvalidRef (unregisterService s svc name) ∧
      (unregisterService s svc name).state = s ∧
      (unregisterService s svc name).events = []) ∧
    (∀ (env : RegEnv) (s : DMState) (d : DeviceRef),
      d.isNil = false → env.queryFails = false → deviceIsRegistered s d = false →
      raisesInvalidRef (unregisterDevice env s d) ∧
      (unregisterDevice env s d).state = s ∧ (unregisterDevice env s d).events = []) := by
  refine ⟨?_, ?_, ?_, ?_, ?_⟩
  · intro env s d h
    exact ⟨⟨"registeringDevice is a nil reference", by simp [registerDevice, h]⟩,
      by simp [registerDevice, h], by simp [registerDevice, h]⟩
  · intro env s svc name h
    exact ⟨⟨"registeringService is a nil reference", by simp [registerService, h]⟩,
      by simp [registerService, h], by simp [registerService, h]⟩
  · intro env s d h
    exact ⟨⟨"registeringDevice is a nil reference", by simp [unregisterDevice, h]⟩,
      by simp [unregisterDevice, h], by simp [unregisterDevice, h]⟩
  · intro s svc name h
    exact ⟨⟨"registeringService is a nil reference", by simp [unregisterService, h]⟩,
      by simp [unregisterService, h], by simp [unregisterService, h]⟩
  · intro env s d h1 h2 h3
    have hd := decrement_registeredDevices_notFound h3
    exact ⟨⟨"registeringDevice was not registered", by simp [unregisterDevice, h1, h2, hd]⟩,
      by simp [unregisterDevice, h1, h2, hd], by simp [unregisterDevice, h1, h2, hd]⟩

/-- C3 witness: the theorem applied at concrete nil references and at a
non-nil reference unknown to an empty registry. -/
theorem C3_witness :
    raisesInvalidRef (registerDevice
      ⟨true, true, false, false, true, false, false, false, false⟩
      ⟨AdminState.REGISTERED, false, [], [], [], []⟩ ⟨true, "d", "ld", "iord"⟩) ∧
    raisesInvalidRef (unregisterDevice
      ⟨true, true, false, false, true, false, false, false, false⟩
      ⟨AdminState.REGISTERED, false, [], [], [], []⟩ ⟨false, "d", "ld", "iord"⟩) := by
  refine ⟨(C3_nil_or_unknown_raises_invalid_reference.1 _ _ _ rfl).1, ?_⟩
  exact (C3_nil_or_unknown_raises_invalid_reference.2.2.2.2 _ _ _ rfl rfl (by decide)).1

/-- C4: a successful unregister removes the record located by IOR
(devices) or by name (services) from the registered bucket; a record with
non-zero pid is moved to the pending bucket, a record with pid 0 is
dropped from every bucket. -/
theorem C4_unregister_moves_or_drops :
    (∀ (s : DMState) (d : DeviceRef) (node : DeviceNode) (rest : List DeviceNode),
      findRemoveBy (fun n => n.IOR == d.ior) s.registeredDevices = (some node, rest) →
      (decrement_registeredDevices s d).1 = true ∧
      (decrement_registeredDevices s d).2.1.registeredDevices = rest ∧
      ((s.registeredDevices.map (fun n => n.IOR)).Nodup →
        node ∉ (decrement_registeredDevices s d).2.1.registeredDevices) ∧
      (node.pid ≠ 0 →
        (decrement_registeredDevices s d).2.1.pendingDevices = s.pendingDevices ++ [node]) ∧
      (node.pid = 0 →
        (decrement_registeredDevices s d).2.1.pendingDevices = s.pendingDevices) ∧
      (decrement_registeredDevices s d).2.1.pendingServices = s.pendingServices ∧
      (decrement_registeredDevices s d).2.1.registeredServices = s.registeredServices) ∧
    (∀ (s : DMState) (name : String) (node : ServiceNode) (rest : List ServiceNode),
      findRemoveBy (fun n => n.label == name) s.registeredServices = (some node, rest) →
      (decrement_registeredServices s name).1 = true ∧
      (decrement_registeredServices s name).2.1.registeredServices = rest ∧
      ((s.registeredServices.map (fun n => n.label)).Nodup →
        node ∉ (decrement_registeredServices s name).2.1.registeredServices) ∧
      (node.pid ≠ 0 →
        (decrement_registeredServices s name).2.1.pendingServices = s.pendingServices ++ [node]) ∧
      (node.pid = 0 →
        (decrement_registeredServices s name).2.1.pendingServices = s.pendingServices) ∧
      (decrement_registeredServices s name).2.1.pendingDevices = s.pendingDevices ∧
      (decrement_registeredServices s name).2.1.registeredDevices = s.registeredDevices) := by
  constructor
  · intro s d node rest h
    refine ⟨?_, ?_, ?_, ?_, ?_, ?_, ?_⟩
    · simp [decrement_registeredDevices, h]
    · simp [decrement_registeredDevices, h]
    · intro hnd hmem
      rw [show (decrement_registeredDevices s d).2.1.registeredDevices = rest by
            simp [decrement_registeredDevices, h]] at hmem
      exact findRemoveBy_not_mem_rest h hnd (List.mem_map_of_mem _ hmem)
    · intro hp; simp [decrement_registeredDevices, h, hp]
    · intro hp; simp [decrement_registeredDevices, h, hp]
    · simp [decrement_registeredDevices, h]
    · simp [decrement_registeredDevices, h]
  · intro s name node rest h
    refine ⟨?_, ?_, ?_, ?_, ?_, ?_, ?_⟩
    · simp [decrement_registeredServices, h]
    · simp [decrement_registeredServices, h]
    · intro hnd hmem
      rw [show (decrement_registeredServices s name).2.1.registeredServices = rest by
            simp [decrement_registeredServices, h]] at hmem
      exact findRemoveBy_not_mem_rest h hnd (List.mem_map_of_mem _ hmem)
    · intro hp; simp [decrement_registeredServices, h, hp]
    · intro hp; simp [decrement_registeredServices, h, hp]
    · simp [decrement_registeredServices, h]
    · simp [decrement_registeredServices, h]

/-- C4 witness: unregistering a registered device with live pid 3 moves it
to pending; unregistering a registered service with pid 0 drops it. -/
theorem C4_witness :
    (decrement_registeredDevices
        ⟨AdminState.REGISTERED, false, [], [⟨"a", "la", "iora", 3⟩], [], []⟩
        ⟨false, "a", "la", "iora"⟩).2.1.pendingDevices = [] ++ [⟨"a", "la", "iora", 3⟩] ∧
    (decrement_registeredServices
        ⟨AdminState.REGISTERED, false, [], [], [], [⟨"s", "ls", "iors", 0⟩]⟩
        "ls").2.1.pendingServices = [] := by
  constructor
  · exact ((C4_unregister_moves_or_drops.1
      ⟨AdminState.REGISTERED, false, [], [⟨"a", "la", "iora", 3⟩], [], []⟩
      ⟨false, "a", "la", "iora"⟩ ⟨"a", "la", "iora", 3⟩ []
      (by decide)).2.2.2.1 (by decide))
  · exact ((C4_unregister_moves_or_drops.2
      ⟨AdminState.REGISTERED, false, [], [], [], [⟨"s", "ls", "iors", 0⟩]⟩
      "ls" ⟨"s", "ls", "iors", 0⟩ []
      (by decide)).2.2.2.2.1 (by decide))

/-- C7: registering a child that is already registered (same device IOR,
or same service name) returns without raising and without touching any
state, leaving exactly one entry for that child in the registered
bucket. -/
theorem C7_duplicate_registration_idempotent :
    (∀ (env : RegEnv) (s : DMState) (d : DeviceRef),
      d.isNil = false → countDeviceIOR s d.ior = 1 →
      registerDevice env s d = ⟨.ok (), s, []⟩ ∧
      countDeviceIOR (registerDevice env s d).state d.ior = 1) ∧
    (∀ (env : RegEnv) (s : DMState) (svc : ServiceRef) (name : String),
      svc.isNil = false → countServiceName s name = 1 →
      registerService env s svc name = ⟨.ok (), s, []⟩ ∧
      countServiceName (registerService env s svc name).state name = 1) := by
  constructor
  · intro env s d hnil hcount
    have hreg : deviceIsRegistered s d = true :=
      deviceIsRegistered_of_count (by omega)
    have heq : registerDevice env s d = ⟨.ok (), s, []⟩ := by
      by_cases hs : s.internalShutdown = true <;> simp [registerDevice, hnil, hs, hreg]
    exact ⟨heq, by rw [heq]; exact hcount⟩
  · intro env s svc name hnil hcount
    have hreg : serviceIsRegistered s name = true :=
      serviceIsRegistered_of_count (by omega)
    have heq : registerService env s svc name = ⟨.ok (), s, []⟩ := by
      simp [registerService, hnil, hreg]
    exact ⟨heq, by rw [heq]; exact hcount⟩

/-- C7 witness: a duplicate device and a duplicate service registration
against singleton buckets are no-ops. -/
theorem C7_witness :
    registerDevice ⟨true, true, false, false, true, false, false, false, false⟩
        ⟨AdminState.REGISTERED, false, [], [⟨"a", "la", "iora", 3⟩], [], []⟩
        ⟨false, "a", "la", "iora"⟩ =
      ⟨.ok (), ⟨AdminState.REGISTERED, false, [], [⟨"a", "la", "iora", 3⟩], [], []⟩, []⟩ ∧
    registerService ⟨true, true, false, false, true, false, false, false, false⟩
        ⟨AdminState.REGISTERED, false, [], [], [], [⟨"s", "ls", "iors", 0⟩]⟩
        ⟨false, "iors"⟩ "ls" =
      ⟨.ok (), ⟨AdminState.REGISTERED, false, [], [], [], [⟨"s", "ls", "iors", 0⟩]⟩, []⟩ := by
  constructor
  · exact (C7_duplicate_registration_idempotent.1 _ _ _ rfl (by decide)).1
  · exact (C7_duplicate_registration_idempotent.2 _ _ _ _ rfl (by decide)).1

/-- C10: the snapshot operations never raise: an internal failure while
building yields the empty sequence, and otherwise the result has exactly
one entry per child in the registered bucket, in order. -/
theorem C10_snapshots_total :
    ∀ (failAt : Nat → Bool) (s : DMState),
      (registeredDevicesOp failAt s = [] ∨
        registeredDevicesOp failAt s = s.registeredDevices.map (fun n => n.IOR)) ∧
      ((∀ j, failAt j = false) →
        registeredDevicesOp failAt s = s.registeredDevices.map (fun n => n.IOR)) ∧
      (registeredServicesOp failAt s = [] ∨
        registeredServicesOp failAt s = s.registeredServices.map (fun n => (n.IOR, n.label))) ∧
      ((∀ j, failAt j = false) →
        registeredServicesOp failAt s = s.registeredServices.map (fun n => (n.IOR, n.label))) := by
  intro failAt s
  refine ⟨?_, ?_, ?_, ?_⟩
  · unfold registeredDevicesOp
    cases hb : buildDeviceSequence failAt 0 s.registeredDevices with
    | ok r => exact Or.inr (buildDeviceSequence_ok hb)
    | error e => exact Or.inl rfl
  · intro hf
    unfold registeredDevicesOp
    rw [buildDeviceSequence_noFail hf 0]
  · unfold registeredServicesOp
    cases hb : buildServiceSequence failAt 0 s.registeredServices with
    | ok r => exact Or.inr (buildServiceSequence_ok hb)
    | error e => exact Or.inl rfl
  · intro hf
    unfold registeredServicesOp
    rw [buildServiceSequence_noFail hf 0]

/-- C10 witness: with no internal failure, both snapshots list exactly the
registered children. -/
theorem C10_witness :
    registeredDevicesOp (fun _ => false)
        ⟨AdminState.REGISTERED, false, [], [⟨"a", "la", "iora", 3⟩], [], [⟨"s", "ls", "iors", 0⟩]⟩ =
      ["iora"] ∧
    registeredServicesOp (fun _ => false)
        ⟨AdminState.REGISTERED, false, [], [⟨"a", "la", "iora", 3⟩], [], [⟨"s", "ls", "iors", 0⟩]⟩ =
      [("iors", "ls")] := by
  constructor
  · exact (C10_snapshots_total (fun _ => false) _).2.1 (fun _ => rfl)
  · exact (C10_snapshots_total (fun _ => false) _).2.2.2 (fun _ => rfl)

theorem shutdownEntry_flag_and_state (s : DMState) :
    (shutdownEntry s).internalShutdown = true ∧
    ((shutdownEntry s).adminState = AdminState.SHUTTING_DOWN ∨
      (shutdownEntry s).adminState = AdminState.SHUTDOWN) := by
  unfold shutdownEntry
  by_cases h : s.adminState = AdminState.SHUTTING_DOWN ∨ s.adminState = AdminState.SHUTDOWN
  · rw [if_pos h]; exact ⟨rfl, h⟩
  · rw [if_neg h]; exact ⟨rfl, Or.inl rfl⟩

theorem deviceIsRegistered_increment (s : DMState) (d : DeviceRef) :
    deviceIsRegistered (increment_registeredDevices s d) d = true := by
  unfold deviceIsRegistered increment_registeredDevices
  cases hf : (findRemoveBy (fun n => n.identifier == d.identifier) s.pendingDevices).1 <;>
    simp [hf, List.any_append]

theorem increment_registeredServices_appends (s : DMState) (svc : ServiceRef) (name : String) :
    ∃ node, (increment_registeredServices s svc name).registeredServices =
      s.registeredServices ++ [node] :=
  ⟨_, rfl⟩

/-- C1 counterexample: with AdminState = ShuttingDown (and the shutdown
flag observed), a `registerService` call with a non-nil reference still
performs a naming-directory rebind and adds the service to the registered
bucket, contradicting the claim that it is a no-op. -/
theorem C1_counterexample :
    (registerService ⟨true, true, false, false, true, false, false, false, false⟩
        ⟨AdminState.SHUTTING_DOWN, true, [], [], [], []⟩ ⟨false, "iorS"⟩ "svc").events =
      [Event.nameRebind "svc"] ∧
    (registerService ⟨true, true, false, false, true, false, false, false, false⟩
        ⟨AdminState.SHUTTING_DOWN, true, [], [], [], []⟩ ⟨false, "iorS"⟩ "svc").state.registeredServices =
      [⟨"svc", "svc", "iorS", 0⟩] :=
  ⟨rfl, rfl⟩

/-- C1 (amended): once the shutdown flag is set (shutdown raises it before
entering ShuttingDown or ShutDown), a non-nil `registerDevice` call is a
complete no-op — no outbound call, no state change, no exception — while
`registerService` merely returns without raising and performs no
DomainManager registration; its naming rebind and bucket update are not
suppressed. -/
theorem C1_shutdown_guard :
    ∀ (env : RegEnv) (s : DMState) (d : DeviceRef) (svc : ServiceRef) (name : String),
      (s.adminState = AdminState.SHUTTING_DOWN ∨ s.adminState = AdminState.SHUTDOWN) →
      s.internalShutdown = true →
      d.isNil = false → svc.isNil = false →
      registerDevice env s d = ⟨.ok (), s, []⟩ ∧
      (registerService env s svc name).result = .ok () ∧
      (∀ n, Event.remoteRegisterService n ∉ (registerService env s svc name).events) := by
  intro env s d svc name hadm hflag hd hsvc
  have hadmne : s.adminState ≠ AdminState.REGISTERED := by
    rcases hadm with h | h <;> rw [h] <;> decide
  have hne : (increment_registeredServices s svc name).adminState ≠ AdminState.REGISTERED :=
    hadmne
  refine ⟨by simp [registerDevice, hd, hflag], ?_, ?_⟩
  · by_cases hr : serviceIsRegistered s name = true
    · simp [registerService, hsvc, hr]
    · by_cases hb : env.bindFails = true <;>
        simp [registerService, hsvc, hr, hb, hne]
  · intro n
    by_cases hr : serviceIsRegistered s name = true
    · simp [registerService, hsvc, hr]
    · by_cases hb : env.bindFails = true <;>
        simp [registerService, hsvc, hr, hb, hne]

/-- C1 witness: the amended theorem applied at a ShuttingDown state with a
non-nil device and service reference. -/
theorem C1_witness :
    registerDevice ⟨true, true, false, false, true, false, false, false, false⟩
        ⟨AdminState.SHUTTING_DOWN, true, [], [], [], []⟩ ⟨false, "d", "ld", "iord"⟩ =
      ⟨.ok (), ⟨AdminState.SHUTTING_DOWN, true, [], [], [], []⟩, []⟩ ∧
    (registerService ⟨true, true, false, false, true, false, false, false, false⟩
        ⟨AdminState.SHUTTING_DOWN, true, [], [], [], []⟩ ⟨false, "iorS"⟩ "svc").result = .ok () ∧
    (∀ n, Event.remoteRegisterService n ∉
      (registerService ⟨true, true, false, false, true, false, false, false, false⟩
          ⟨AdminState.SHUTTING_DOWN, true, [], [], [], []⟩ ⟨false, "iorS"⟩ "svc").events) :=
  C1_shutdown_guard _ _ _ _ "svc" (Or.inl rfl) rfl rfl rfl

/-- C2 counterexample: with AdminState = Registered, when the forward of a
service registration to the DomainManager fails, `registerService` unbinds
the name, removes the just-added record and re-throws — the failure is not
merely logged and local state is not left intact. -/
theorem C2_counterexample :
    (registerService ⟨true, true, false, false, true, false, false, true, false⟩
        ⟨AdminState.REGISTERED, false, [], [], [], []⟩ ⟨false, "iorS"⟩ "svc").result =
      .error .remoteFailure ∧
    (registerService ⟨true, true, false, false, true, false, false, true, false⟩
        ⟨AdminState.REGISTERED, false, [], [], [], []⟩ ⟨false, "iorS"⟩ "svc").state.registeredServices =
      [] ∧
    (registerService ⟨true, true, false, false, true, false, false, true, false⟩
        ⟨AdminState.REGISTERED, false, [], [], [], []⟩ ⟨false, "iorS"⟩ "svc").events =
      [Event.nameRebind "svc", Event.remoteRegisterService "svc", Event.nameUnbind "svc"] :=
  ⟨rfl, rfl, rfl⟩

/-- C2 (amended): when the final forward to the DomainManager fails, for
`registerDevice` the failure is only logged — the device stays in the
registered bucket, its name binding is not undone, and no exception
propagates; for `registerService` the failure unbinds the name, removes
the just-added record (restoring the registered bucket) and propagates the
exception to the caller. -/
theorem C2_remote_forward_failure :
    (∀ (env : RegEnv) (s : DMState) (d : DeviceRef),
      d.isNil = false → s.internalShutdown = false →
      deviceIsRegistered s d = false →
      env.profileFound = true → env.initPropsFails = false →
      env.initializeFails = false → env.configureFails = false →
      env.bindFails = false → s.adminState = AdminState.REGISTERED →
      env.remoteRegisterFails = true →
      (registerDevice env s d).result = .ok () ∧
      deviceIsRegistered (registerDevice env s d).state d = true ∧
      Event.nameBind d.label ∈ (registerDevice env s d).events ∧
      (∀ n, Event.nameUnbind n ∉ (registerDevice env s d).events) ∧
      Event.remoteRegisterDevice d.ior ∈ (registerDevice env s d).events) ∧
    (∀ (env : RegEnv) (s : DMState) (svc : ServiceRef) (name : String),
      svc.isNil = false → serviceIsRegistered s name = false →
      env.bindFails = false → s.adminState = AdminState.REGISTERED →
      env.remoteRegisterFails = true →
      (registerService env s svc name).result = .error .remoteFailure ∧
      (registerService env s svc name).state.registeredServices = s.registeredServices ∧
      Event.nameUnbind name ∈ (registerService env s svc name).events) := by
  constructor
  · intro env s d h1 h2 h3 h4 h5 h6 h7 h8 h9 h10
    have hreg1 : (increment_registeredDevices s d).adminState = AdminState.REGISTERED := h9
    have hdev := deviceIsRegistered_increment s d
    refine ⟨?_, ?_, ?_, ?_, ?_⟩
    · by_cases hc : env.configurable = true <;> by_cases hcp : env.hasConfigureProps = true <;>
        simp [registerDevice, h1, h2, h3, h4, h5, h6, h7, h8, hreg1, hc, hcp]
    · by_cases hc : env.configurable = true <;> by_cases hcp : env.hasConfigureProps = true <;>
        simpa [registerDevice, h1, h2, h3, h4, h5, h6, h7, h8, hreg1, hc, hcp] using hdev
    · by_cases hc : env.configurable = true <;> by_cases hcp : env.hasConfigureProps = true <;>
        simp [registerDevice, h1, h2, h3, h4, h5, h6, h7, h8, hreg1, hc, hcp]
    · intro n
      by_cases hc : env.configurable = true <;> by_cases hcp : env.hasConfigureProps = true <;>
        simp [registerDevice, h1, h2, h3, h4, h5, h6, h7, h8, hreg1, hc, hcp]
    · by_cases hc : env.configurable = true <;> by_cases hcp : env.hasConfigureProps = true <;>
        simp [registerDevice, h1, h2, h3, h4, h5, h6, h7, h8, hreg1, hc, hcp]
  · intro env s svc name h1 h2 h3 h4 h5
    have hadm1 : (increment_registeredServices s svc name).adminState = AdminState.REGISTERED := h4
    obtain ⟨node, hn⟩ := increment_registeredServices_appends s svc name
    refine ⟨?_, ?_, ?_⟩
    · simp [registerService, h1, h2, h3, hadm1, h5]
    · have hstate : (registerService env s svc name).state.registeredServices =
          ((increment_registeredServices s svc name).registeredServices).dropLast := by
        simp [registerService, h1, h2, h3, hadm1, h5]
      rw [hstate, hn, List.dropLast_concat]
    · simp [registerService, h1, h2, h3, hadm1, h5]

/-- C2 witness: the amended theorem applied at a Registered state with a
failing DomainManager forward, for one device and one service. -/
theorem C2_witness :
    (registerDevice ⟨true, true, false, false, true, false, false, true, false⟩
        ⟨AdminState.REGISTERED, false, [], [], [], []⟩ ⟨false, "d", "ld", "iord"⟩).result =
      .ok () ∧
    (registerService ⟨true, true, false, false, true, false, false, true, false⟩
        ⟨AdminState.REGISTERED, false, [], [], [], []⟩ ⟨false, "iorS"⟩ "svc").result =
      .error .remoteFailure := by
  constructor
  · exact (C2_remote_forward_failure.1 _ _ _ rfl rfl (by decide) rfl rfl rfl rfl rfl rfl rfl).1
  · exact (C2_remote_forward_failure.2 _ _ _ "svc" rfl (by decide) rfl rfl rfl).1

/-- C8 counterexample: a pending service record whose identifier matches
the registering name but whose label differs is not adopted — the code
joins services by label, not identifier: the pending record (pid 5) stays
pending and a fresh external record with pid 0 is created instead. -/
theorem C8_counterexample :
    (registerService ⟨true, true, false, false, true, false, false, false, false⟩
        ⟨AdminState.REGISTERED, false, [], [], [⟨"X", "Y", "", 5⟩], []⟩
        ⟨false, "iorS"⟩ "X").state.pendingServices = [⟨"X", "Y", "", 5⟩] ∧
    (registerService ⟨true, true, false, false, true, false, false, false, false⟩
        ⟨AdminState.REGISTERED, false, [], [], [⟨"X", "Y", "", 5⟩], []⟩
        ⟨false, "iorS"⟩ "X").state.registeredServices = [⟨"X", "X", "iorS", 0⟩] :=
  ⟨rfl, rfl⟩

/-- C8 (amended): the join key between a spawn-time pending record and an
arriving registration is the identifier for devices but the label (the
service name) for services; in both cases a matching pending record is
adopted keeping its pid, and a registration without a match creates a new
record with pid 0. -/
theorem C8_join_keys :
    (∀ (s : DMState) (d : DeviceRef) (node : DeviceNode) (rest : List DeviceNode),
      findRemoveBy (fun n => n.identifier == d.identifier) s.pendingDevices = (some node, rest) →
      increment_registeredDevices s d =
        { s with pendingDevices := rest,
                 registeredDevices :=
                   s.registeredDevices ++ [{ node with label := d.label, IOR := d.ior }] }) ∧
    (∀ (s : DMState) (d : DeviceRef),
      (∀ n ∈ s.pendingDevices, (n.identifier == d.identifier) = false) →
      increment_registeredDevices s d =
        { s with registeredDevices :=
            s.registeredDevices ++ [⟨d.identifier, d.label, d.ior, 0⟩] }) ∧
    (∀ (s : DMState) (svc : ServiceRef) (name : String) (node : ServiceNode)
        (rest : List ServiceNode),
      findRemoveBy (fun n => n.label == name) s.pendingServices = (some node, rest) →
      increment_registeredServices s svc name =
        { s with pendingServices := rest,
                 registeredServices :=
                   s.registeredServices ++ [{ node with label := name, IOR := svc.ior }] }) ∧
    (∀ (s : DMState) (svc : ServiceRef) (name : String),
      (∀ n ∈ s.pendingServices, (n.label == name) = false) →
      increment_registeredServices s svc name =
        { s with registeredServices := s.registeredServices ++ [⟨name, name, svc.ior, 0⟩] }) := by
  refine ⟨?_, ?_, ?_, ?_⟩
  · intro s d node rest h
    simp [increment_registeredDevices, h]
  · intro s d hall
    simp [increment_registeredDevices, findRemoveBy_none hall]
  · intro s svc name node rest h
    simp [increment_registeredServices, h]
  · intro s svc name hall
    simp [increment_registeredServices, findRemoveBy_none hall]

/-- C8 witness: a device registration adopting its spawn-time pending
record by identifier, keeping pid 7, and a service registration with no
pending match creating a pid-0 record. -/
theorem C8_witness :
    increment_registeredDevices
        ⟨AdminState.REGISTERED, false, [⟨"a", "oldlab", "", 7⟩], [], [], []⟩
        ⟨false, "a", "la", "iora"⟩ =
      ⟨AdminState.REGISTERED, false, [], [⟨"a", "la", "iora", 7⟩], [], []⟩ ∧
    increment_registeredServices
        ⟨AdminState.REGISTERED, false, [], [], [], []⟩ ⟨false, "iorS"⟩ "svc" =
      ⟨AdminState.REGISTERED, false, [], [], [], [⟨"svc", "svc", "iorS", 0⟩]⟩ := by
  constructor
  · exact C8_join_keys.1
      ⟨AdminState.REGISTERED, false, [⟨"a", "oldlab", "", 7⟩], [], [], []⟩
      ⟨false, "a", "la", "iora"⟩ ⟨"a", "oldlab", "", 7⟩ [] (by decide)
  · exact C8_join_keys.2.2.2
      ⟨AdminState.REGISTERED, false, [], [], [], []⟩ ⟨false, "iorS"⟩ "svc"
      (by intro n hn; cases hn)

/-- C5: the manager's own implementation is the first variant matching the
host's machine and sysname; an empty or unmatched variant list is fatal;
a per-placement resolution failure skips only that placement and never
aborts the plan, while a resolved placement always enters the plan. -/
theorem C5_host_match_and_plan_failures :
    (∀ (impls : List ImplementationVariant) (host : HostFacts) (impl : ImplementationVariant),
      impls.find? (fun i => checkProcessorAndOs i host) = some impl →
      setupImplementationForHost impls host = .ok impl) ∧
    (∀ (impls : List ImplementationVariant) (host : HostFacts),
      (impls = [] ∨ ∀ i ∈ impls, checkProcessorAndOs i host = false) →
      ∃ msg, setupImplementationForHost impls host = .error msg) ∧
    (∀ (host : HostFacts) (p : PlacementSpec) (rest : List PlacementSpec),
      resolvePlacement host p = none →
      planPlacements host (p :: rest) = planPlacements host rest) ∧
    (∀ (host : HostFacts) (p : PlacementSpec) (rest : List PlacementSpec)
        (impl : ImplementationInfo),
      resolvePlacement host p = some impl →
      ((p, impl) ∈ (planPlacements host (p :: rest)).1 ∨
        (p, impl) ∈ (planPlacements host (p :: rest)).2) ∧
      ((planPlacements host (p :: rest)).1 = (planPlacements host rest).1 ∨
        (planPlacements host (p :: rest)).1 = (p, impl) :: (planPlacements host rest).1) ∧
      ((planPlacements host (p :: rest)).2 = (planPlacements host rest).2 ∨
        (planPlacements host (p :: rest)).2 = (p, impl) :: (planPlacements host rest).2)) := by
  refine ⟨?_, ?_, ?_, ?_⟩
  · intro impls host impl h
    cases impls with
    | nil => simp [List.find?] at h
    | cons x xs =>
      unfold setupImplementationForHost
      rw [if_neg (by simp), h]
  · intro impls host h
    rcases h with rfl | hall
    · exact ⟨_, rfl⟩
    · by_cases he : impls = []
      · subst he; exact ⟨_, rfl⟩
      · have hfind : impls.find? (fun i => checkProcessorAndOs i host) = none :=
          List.find?_eq_none.mpr (fun i hi => by simp [hall i hi])
        unfold setupImplementationForHost
        rw [if_neg (by simp [he]), hfind]
        exact ⟨_, rfl⟩
  · intro host p rest h
    simp [planPlacements, h]
  · intro host p rest impl h
    cases hcond : (p.isCompositePartOf && impl.variant.codeType == CodeType.SharedLibrary) with
    | true =>
      refine ⟨Or.inr ?_, Or.inl ?_, Or.inr ?_⟩ <;> simp [planPlacements, h, hcond]
    | false =>
      refine ⟨Or.inl ?_, Or.inr ?_, Or.inl ?_⟩ <;> simp [planPlacements, h, hcond]

/-- C5 witness: the second variant matches host x86_64/Linux and is
selected; a ppc-only manager profile is a fatal mismatch; a placement
whose profile fails to load is skipped without disturbing the plan. -/
theorem C5_witness :
    setupImplementationForHost
        [⟨"i1", "ppc", "Linux", CodeType.Executable⟩,
         ⟨"i2", "x86_64", "Linux", CodeType.Executable⟩] ⟨"x86_64", "Linux"⟩ =
      .ok ⟨"i2", "x86_64", "Linux", CodeType.Executable⟩ ∧
    (∃ msg, setupImplementationForHost
        [⟨"i1", "ppc", "Linux", CodeType.Executable⟩] ⟨"x86_64", "Linux"⟩ = .error msg) ∧
    planPlacements ⟨"x86_64", "Linux"⟩ [⟨"bad", false, false, []⟩] =
      planPlacements ⟨"x86_64", "Linux"⟩ [] := by
  refine ⟨?_, ?_, ?_⟩
  · exact C5_host_match_and_plan_failures.1 _ _ _ (by decide)
  · exact C5_host_match_and_plan_failures.2.1 _ _ (Or.inr (by decide))
  · exact C5_host_match_and_plan_failures.2.2.1 _ _ [] rfl

theorem planPlacements_snd_eq_filter (host : HostFacts) (ps : List PlacementSpec) :
    (planPlacements host ps).2 =
      (resolvedPlacements host ps).filter
        (fun q => q.1.isCompositePartOf && q.2.variant.codeType == CodeType.SharedLibrary) := by
  induction ps with
  | nil => rfl
  | cons p rest ih =>
    cases hr : resolvePlacement host p with
    | none => simpa [planPlacements, resolvedPlacements, hr, List.filterMap_cons] using ih
    | some impl =>
      cases hcond : (p.isCompositePartOf && impl.variant.codeType == CodeType.SharedLibrary) with
      | true =>
        simp [planPlacements, resolvedPlacements, hr, hcond, List.filterMap_cons,
          List.filter_cons, ih]
      | false =>
        simp [planPlacements, resolvedPlacements, hr, hcond, List.filterMap_cons,
          List.filter_cons, ih]

theorem planPlacements_fst_eq_filter (host : HostFacts) (ps : List PlacementSpec) :
    (planPlacements host ps).1 =
      (resolvedPlacements host ps).filter
        (fun q => !(q.1.isCompositePartOf && q.2.variant.codeType == CodeType.SharedLibrary)) := by
  induction ps with
  | nil => rfl
  | cons p rest ih =>
    cases hr : resolvePlacement host p with
    | none => simpa [planPlacements, resolvedPlacements, hr, List.filterMap_cons] using ih
    | some impl =>
      by_cases ha : p.isCompositePartOf = true
      · by_cases hb : (impl.variant.codeType == CodeType.SharedLibrary) = true
        · simp [planPlacements, resolvedPlacements, hr, ha, hb, List.filterMap_cons,
            List.filter_cons, ih]
        · have hb2 : (impl.variant.codeType == CodeType.SharedLibrary) = false :=
            Bool.eq_false_iff.mpr hb
          simp [planPlacements, resolvedPlacements, hr, ha, hb2, List.filterMap_cons,
            List.filter_cons, ih]
      · have ha2 : p.isCompositePartOf = false := Bool.eq_false_iff.mpr ha
        simp [planPlacements, resolvedPlacements, hr, ha2, List.filterMap_cons,
          List.filter_cons, ih]

/-- C9: a placement enters the composite list iff it is successfully
resolved, marked `isCompositePartOf` and its selected implementation's
code type is SharedLibrary; every other resolved placement enters the
standalone list (both in input order); and the launch sequence runs all
standalone placements before any composite placement. -/
theorem C9_composite_classification_order :
    ∀ (host : HostFacts) (ps : List PlacementSpec),
      (planPlacements host ps).2 =
        (resolvedPlacements host ps).filter
          (fun q => q.1.isCompositePartOf && q.2.variant.codeType == CodeType.SharedLibrary) ∧
      (planPlacements host ps).1 =
        (resolvedPlacements host ps).filter
          (fun q => !(q.1.isCompositePartOf && q.2.variant.codeType == CodeType.SharedLibrary)) ∧
      launchSequence host ps =
        (planPlacements host ps).1.map (fun q => q.1.instId) ++
          (planPlacements host ps).2.map (fun q => q.1.instId) :=
  fun host ps =>
    ⟨planPlacements_snd_eq_filter host ps, planPlacements_fst_eq_filter host ps, rfl⟩

/-- C6: during teardown every registered device receives `releaseObject`
with a 3-second call timeout and (unless it unregistered itself, which
yields the same bucket move) is transferred to pending when its pid is
non-zero; afterwards every pending device receives SIGINT with a bounded
wait, then SIGTERM with the same bounded wait, then SIGKILL with no wait,
in exactly that order. -/
theorem C6_release_then_escalate :
    ∀ (rel : String → Bool) (s : DMState) (t : Nat), 0 < t →
      (∀ dev ∈ s.registeredDevices,
        Event.releaseObject dev.IOR 3000 ∈ (clean_registeredDevices rel t s).2) ∧
      (clean_registeredDevices rel t s).1.registeredDevices = [] ∧
      (clean_registeredDevices rel t s).1.pendingDevices =
        s.pendingDevices ++ s.registeredDevices.filter (fun dev => dev.pid != 0) ∧
      (clean_registeredDevices rel t s).2 =
        (cleanReleaseLoop rel s.adminState s.registeredDevices s.pendingDevices).2 ++
          ((clean_registeredDevices rel t s).1.pendingDevices.map
              (fun dev => Event.signalSent dev.pid SIGINT) ++ [Event.waitPending t]) ++
          ((clean_registeredDevices rel t s).1.pendingDevices.map
              (fun dev => Event.signalSent dev.pid SIGTERM) ++ [Event.waitPending t]) ++
          (clean_registeredDevices rel t s).1.pendingDevices.map
            (fun dev => Event.signalSent dev.pid SIGKILL) ∧
      (∀ dev ∈ (clean_registeredDevices rel t s).1.pendingDevices,
        Event.signalSent dev.pid SIGINT ∈ (clean_registeredDevices rel t s).2 ∧
        Event.signalSent dev.pid SIGTERM ∈ (clean_registeredDevices rel t s).2 ∧
        Event.signalSent dev.pid SIGKILL ∈ (clean_registeredDevices rel t s).2) := by
  intro rel s t ht
  have htne : ¬ t = 0 := by omega
  refine ⟨?_, rfl, ?_, ?_, ?_⟩
  · intro dev hdev
    simp only [clean_registeredDevices, List.mem_append]
    exact Or.inl (Or.inl (Or.inl (cleanReleaseLoop_release_mem rel s.adminState _ hdev)))
  · exact cleanReleaseLoop_pending rel s.adminState s.registeredDevices s.pendingDevices
  · simp [clean_registeredDevices, killPendingDevices, ht, List.append_assoc]
  · intro dev hdev
    have hdev2 : dev ∈ (cleanReleaseLoop rel s.adminState s.registeredDevices s.pendingDevices).1 := hdev
    refine ⟨?_, ?_, ?_⟩ <;>
      · simp only [clean_registeredDevices, killPendingDevices, List.mem_append]
        first
        | exact Or.inl (Or.inl (Or.inr (Or.inl (List.mem_map_of_mem _ hdev2))))
        | exact Or.inl (Or.inr (Or.inl (List.mem_map_of_mem _ hdev2)))
        | exact Or.inr (Or.inl (List.mem_map_of_mem _ hdev2))

/-- C6 witness: one registered device (pid 3) that ignores releaseObject
is moved to pending alongside the already-pending device (pid 7), with the
default 0.5-second force-quit time. -/
theorem C6_witness :
    0 < DEVICE_FORCE_QUIT_TIME_DEFAULT_US ∧
    (clean_registeredDevices (fun _ => false) DEVICE_FORCE_QUIT_TIME_DEFAULT_US
        ⟨AdminState.SHUTTING_DOWN, true, [⟨"p", "lp", "iorp", 7⟩],
          [⟨"a", "la", "iora", 3⟩], [], []⟩).1.pendingDevices =
      [⟨"p", "lp", "iorp", 7⟩] ++
        [(⟨"a", "la", "iora", 3⟩ : DeviceNode)].filter (fun dev => dev.pid != 0) := by
  refine ⟨by decide, ?_⟩
  exact (C6_release_then_escalate (fun _ => false) _ DEVICE_FORCE_QUIT_TIME_DEFAULT_US
    (by decide)).2.2.1

end DevMgr
